import Mathlib

/-!
Shallow embedding of the AutoWeave core (`src/core/agent-weaver.js`, with the
`Validator`/`ValidationError` utilities appended to that file) and proofs about
its workflow-synthesis and contract-synthesis operations.

Modelling conventions:
* JavaScript values that may be absent (`undefined`/missing property) or blank
  are modelled as `Option String`; JS truthiness of a string (`"" ` is falsy)
  is `strTruthy`.
* Nondeterministic inputs of the code (`Date.now()`, `Math.random()` suffixes)
  are explicit parameters.
* The external completion service is a parameter: each attempt either throws a
  `JsError` (e.g. a rate-limit error) or returns text whose `JSON.parse`
  outcome is given as a `ParseOutcome` (the parser itself is a JS builtin).
* Errors are `JsError`: `validationError message field` models the repo's
  `ValidationError` class, `error message` models a plain `Error`.
-/

namespace AutoWeave

/-- JS string truthiness on an optional string: absent and `""` are falsy. -/
def strTruthy : Option String → Bool
  | none => false
  | some s => !s.data.isEmpty

/-- Whether `pat` occurs as a contiguous substring of `s` (JS `String.includes`). -/
def strContains (s pat : String) : Bool :=
  (List.range (s.data.length + 1)).any (fun i => pat.data.isPrefixOf (s.data.drop i))

/-- Characters kept by the sanitizer's character class `[a-z0-9-]`. -/
def isNameChar (c : Char) : Bool :=
  decide ((97 ≤ c.toNat ∧ c.toNat ≤ 122) ∨ (48 ≤ c.toNat ∧ c.toNat ≤ 57) ∨ c.toNat = 45)

/-- Lowercase-alphanumeric characters `[a-z0-9]`. -/
def isAlnumLower (c : Char) : Bool :=
  decide ((97 ≤ c.toNat ∧ c.toNat ≤ 122) ∨ (48 ≤ c.toNat ∧ c.toNat ≤ 57))

/-- One character of the JS `.replace(/[^a-z0-9-]/g, '-')` step. -/
def replaceChar (c : Char) : Char :=
  if isNameChar c then c else '-'

/-- The hyphen-run collapsing step of `sanitizeName`: each run of hyphens
(the JS regex "-+", replaced globally by "-") becomes one hyphen. -/
def collapseHyphens : List Char → List Char
  | [] => []
  | [c] => [c]
  | a :: b :: t =>
    if a = '-' ∧ b = '-' then collapseHyphens (b :: t)
    else a :: collapseHyphens (b :: t)

/-- The `^-` half of the JS `.replace(/^-|-$/g, '')` step. -/
def dropLeadingHyphen : List Char → List Char
  | [] => []
  | c :: cs => if c = '-' then cs else c :: cs

/-- The `-$` half of the JS `.replace(/^-|-$/g, '')` step. -/
def dropTrailingHyphen (l : List Char) : List Char :=
  if l.getLast? = some '-' then l.dropLast else l

/-- `AgentWeaver.sanitizeName`: lowercase, replace disallowed characters by `-`,
collapse hyphen runs, strip a leading/trailing hyphen, then truncate to 63
characters (`.substring(0, 63)`, applied last). -/
def sanitizeName (name : String) : String :=
  let lowered := name.data.map Char.toLower
  let replaced := lowered.map replaceChar
  let collapsed := collapseHyphens replaced
  let stripped := dropTrailingHyphen (dropLeadingHyphen collapsed)
  String.mk (stripped.take 63)

/-- The platform-name regular expression from `Validator.validateKubernetesName`:
matches a string iff it fits the Kubernetes naming pattern. -/
def k8sNameValid (s : String) : Bool :=
  match s.data with
  | [] => false
  | [c] => isAlnumLower c
  | c :: rest =>
    isAlnumLower c && rest.dropLast.all isNameChar &&
      (match rest.getLast? with
       | some d => isAlnumLower d
       | none => true)

/-- Auxiliary predicate: the list contains no two adjacent hyphens. -/
def noDoubleHyphen : List Char → Bool
  | a :: b :: t => if a = '-' ∧ b = '-' then false else noDoubleHyphen (b :: t)
  | _ => true

/-- Errors thrown by the modelled JS code: the repo's `ValidationError` class
(with its `field` property) and the plain built-in `Error`. -/
inductive JsError where
  | validationError (message : String) (field : Option String)
  | error (message : String)
deriving DecidableEq, Repr

/-- The `message` property of a thrown error. -/
def JsError.message : JsError → String
  | .validationError m _ => m
  | .error m => m

deriving instance DecidableEq for Except

/-- A JS value passed as the `description` argument: `null`/`undefined`, some
other non-string value, or a string. -/
inductive JsInput where
  | nullish
  | nonString
  | strVal (s : String)
deriving DecidableEq, Repr

/-- One entry of `requiredModules`. -/
structure ModuleSpec where
  name : String
  type : String
  description : String
deriving DecidableEq, Repr

/-- One entry of `steps`. -/
structure StepSpec where
  action : String
  description : String
deriving DecidableEq, Repr

/-- The `modelConfig` record. -/
structure ModelConfig where
  name : String
  temperature : ℚ
deriving DecidableEq, Repr

/-- A raw workflow object, as parsed from the completion response: every
property may be absent. -/
structure RawWorkflow where
  id : Option String
  name : Option String
  description : Option String
  requiredModules : Option (List ModuleSpec)
  steps : Option (List StepSpec)
  modelConfig : Option ModelConfig
deriving DecidableEq, Repr

/-- A workflow as returned by the weaver (all fields populated). -/
structure Workflow where
  id : String
  name : String
  description : String
  requiredModules : List ModuleSpec
  steps : List StepSpec
  modelConfig : ModelConfig
deriving DecidableEq, Repr

/-- `Validator.validateAgentDescription`. The JS method returns `true`; the
model returns the validated string so callers can thread it. -/
def validateAgentDescription : JsInput → Except JsError String
  | .nullish =>
    .error (.validationError "Description is required and must be a string" (some "description"))
  | .nonString =>
    .error (.validationError "Description is required and must be a string" (some "description"))
  | .strVal s =>
    if s.length < 20 then
      .error (.validationError "Description must be at least 20 characters long" (some "description"))
    else if s.length > 1000 then
      .error (.validationError "Description must be less than 1000 characters" (some "description"))
    else .ok s

/-- `Validator.validateKubernetesName`. -/
def validateKubernetesName (name : String) : Except JsError Unit :=
  if k8sNameValid name then .ok ()
  else .error (.validationError
    "Invalid Kubernetes name. Must start and end with alphanumeric characters, may contain hyphens"
    (some "kubernetesName"))

/-- `AgentWeaver.validateAndEnhanceWorkflow`. `genId` is the id the JS code
would generate from `Date.now()` and `Math.random()` when `workflow.id` is
falsy. -/
def validateAndEnhanceWorkflow (workflow : RawWorkflow) (originalDescription : String)
    (genId : String) : Except JsError Workflow :=
  let id := if strTruthy workflow.id then workflow.id.getD "" else genId
  if strTruthy workflow.name = false then
    .error (.error "Workflow must have a name")
  else
    let description :=
      if strTruthy workflow.description then workflow.description.getD ""
      else originalDescription
    match workflow.requiredModules with
    | none => .error (.error "Workflow must have at least one required module")
    | some [] => .error (.error "Workflow must have at least one required module")
    | some (m :: ms) =>
      let name := sanitizeName (workflow.name.getD "")
      let steps := workflow.steps.getD []
      let modelConfig := workflow.modelConfig.getD ⟨"gpt-4", mkRat 7 10⟩
      match validateKubernetesName name with
      | .error e => .error e
      | .ok _ => .ok ⟨id, name, description, m :: ms, steps, modelConfig⟩

/-- The JS `description.split(' ')`: split a character list at every
occurrence of `sep`, keeping empty segments. -/
def splitChars (sep : Char) : List Char → List (List Char)
  | [] => [[]]
  | c :: cs =>
    match splitChars sep cs with
    | [] => [[]]
    | seg :: rest => if c = sep then [] :: seg :: rest else (c :: seg) :: rest

/-- The JS `.join('-')` over the segments produced by `splitChars`. -/
def joinWithHyphen : List (List Char) → List Char
  | [] => []
  | [x] => x
  | x :: y :: t => x ++ '-' :: joinWithHyphen (y :: t)

/-- `AgentWeaver.generateMockWorkflow`. `now` and `rnd` are the `Date.now()`
timestamp string and the `Math.random()` suffix used for the id. The name is
built from the first three space-separated words of the description, joined by
hyphens and sanitized. -/
def generateMockWorkflow (description now rnd : String) : Workflow :=
  { id := "agent-" ++ now ++ "-" ++ rnd
  , name := sanitizeName (String.mk (joinWithHyphen ((splitChars ' ' description.data).take 3)))
  , description := description
  , requiredModules := [⟨"file-reader", "file_system", "Read files from filesystem"⟩]
  , steps := [⟨"process_files", "Process files based on description"⟩]
  , modelConfig := ⟨"gpt-4", mkRat 7 10⟩ }

/-- Outcome of `JSON.parse` on the completion response text: either the text is
not parseable, or it parses to a raw workflow object. -/
inductive ParseOutcome where
  | malformed
  | parsed (raw : RawWorkflow)
deriving DecidableEq, Repr

/-- Modelled from the spec: `RetryHelper.withRetry` (the repository's
`src/utils/retry.js` is not part of the provided sources). Per §4.3 of the
design: run `op` up to `maxAttempts` times; after a failing attempt, if
`shouldRetry` rejects the error it is re-raised immediately, otherwise the
operation is retried after a fixed delay; on exhausting attempts the most recent
error is raised. The second component counts invocations of `op`. -/
def withRetryGo (op : Nat → Except JsError α) (shouldRetry : JsError → Bool) :
    Nat → Nat → Except JsError α × Nat
  | 0, calls => (.error (.error "withRetry: no attempts"), calls)
  | n + 1, calls =>
    match op calls with
    | .ok a => (.ok a, calls + 1)
    | .error e =>
      if shouldRetry e ∧ n ≠ 0 then withRetryGo op shouldRetry n (calls + 1)
      else (.error e, calls + 1)

/-- Modelled from the spec: bounded retry entry point (see `withRetryGo`). -/
def withRetry (op : Nat → Except JsError α) (maxAttempts : Nat)
    (shouldRetry : JsError → Bool) : Except JsError α × Nat :=
  withRetryGo op shouldRetry maxAttempts 0

/-- The retry predicate used by `generateWorkflow`:
`(error) => error.message.includes('rate limit')`. -/
def shouldRetryRateLimit (e : JsError) : Bool :=
  strContains e.message "rate limit"

/-- `AgentWeaver.processDescription` for one completion attempt. The attempt
either throws (the completion call is outside the `try` block, so such errors
propagate unchanged) or yields response text with parse outcome `resp`. Both
`JSON.parse` and `validateAndEnhanceWorkflow` run inside one `try` whose
`catch` throws the single generic error. -/
def processDescription (attempt : Except JsError ParseOutcome)
    (description now rnd : String) : Except JsError Workflow :=
  match attempt with
  | .error e => .error e
  | .ok .malformed => .error (.error "Invalid workflow structure generated")
  | .ok (.parsed raw) =>
    match validateAndEnhanceWorkflow raw description ("agent-" ++ now ++ "-" ++ rnd) with
    | .ok w => .ok w
    | .error _ => .error (.error "Invalid workflow structure generated")

/-- `AgentWeaver.generateWorkflow`. `mockMode` is the instance flag set by
`initialize`; `responses` gives, per attempt index, the completion client's
behaviour; `now`/`rnd` feed id generation. The second component counts
completion-service calls. -/
def generateWorkflow (mockMode : Bool) (responses : List (Except JsError ParseOutcome))
    (description : JsInput) (now rnd : String) : Except JsError Workflow × Nat :=
  match validateAgentDescription description with
  | .error e => (.error e, 0)
  | .ok s =>
    if mockMode then (.ok (generateMockWorkflow s now rnd), 0)
    else
      withRetry
        (fun i => processDescription
          (responses.getD i (.error (.error "no completion response"))) s now rnd)
        3 shouldRetryRateLimit

/-- One named property inside an object schema literal. -/
structure SchemaProp where
  type : String
  format : Option String
  description : String
deriving DecidableEq, Repr

/-- An object schema as written in the source literals. -/
structure ObjectSchema where
  type : String
  properties : List (String × SchemaProp)
  required : List String
deriving DecidableEq, Repr

/-- The `Error` schema literal injected by `enhanceOpenAPISpec`. -/
def errorSchemaDefault : ObjectSchema :=
  { type := "object"
  , properties :=
      [ ("error", ⟨"string", none, "Error message"⟩)
      , ("code", ⟨"integer", none, "Error code"⟩)
      , ("timestamp", ⟨"string", some "date-time", "Error timestamp"⟩) ]
  , required := ["error", "timestamp"] }

/-- The `Success` schema literal injected by `enhanceOpenAPISpec`. -/
def successSchemaDefault : ObjectSchema :=
  { type := "object"
  , properties :=
      [ ("success", ⟨"boolean", none, "Operation success status"⟩)
      , ("data", ⟨"object", none, "Response data"⟩)
      , ("timestamp", ⟨"string", some "date-time", "Response timestamp"⟩) ]
  , required := ["success", "timestamp"] }

/-- The `components.schemas` map, with the `Error` and `Success` keys split out
because the code addresses them by name. -/
structure Schemas where
  errorSchema : Option ObjectSchema
  successSchema : Option ObjectSchema
  others : List (String × ObjectSchema)
deriving DecidableEq, Repr

/-- An `apiKey`-type security scheme object. -/
structure ApiKeyScheme where
  type : String
  inLocation : String
  name : String
deriving DecidableEq, Repr

/-- An `http`-type security scheme object. -/
structure BearerScheme where
  type : String
  scheme : String
  bearerFormat : String
deriving DecidableEq, Repr

/-- The `components.securitySchemes` object. -/
structure SecuritySchemes where
  apiKey : Option ApiKeyScheme
  bearerAuth : Option BearerScheme
deriving DecidableEq, Repr

/-- The security-scheme literal injected by `enhanceOpenAPISpec`. -/
def defaultSecuritySchemes : SecuritySchemes :=
  ⟨some ⟨"apiKey", "header", "X-API-Key"⟩, some ⟨"http", "bearer", "JWT"⟩⟩

/-- One entry of the global `security` list (`{ name: scopes }`). -/
structure SecurityRequirement where
  name : String
  scopes : List String
deriving DecidableEq, Repr

/-- One entry of `servers`. -/
structure Server where
  url : String
  description : String
deriving DecidableEq, Repr

/-- The `info` section; the four `x-` entries are the extension attributes. -/
structure Info where
  title : Option String
  version : Option String
  description : Option String
  xAgentId : Option String
  xAgentName : Option String
  xAgentType : Option String
  xAnpVersion : Option String
deriving DecidableEq, Repr

/-- The empty object assigned by `if (!spec.info) spec.info = {}`. -/
def emptyInfo : Info := ⟨none, none, none, none, none, none, none⟩

/-- The `components` section. -/
structure Components where
  securitySchemes : Option SecuritySchemes
  schemas : Option Schemas
deriving DecidableEq, Repr

/-- A draft or enhanced OpenAPI contract document. `paths` keeps only the route
keys: no modelled operation reads inside a path item, only presence and count
matter. -/
structure OpenApiSpec where
  openapi : Option String
  info : Option Info
  servers : Option (List Server)
  paths : Option (List String)
  components : Option Components
  security : Option (List SecurityRequirement)
deriving DecidableEq, Repr

/-- `AgentWeaver.enhanceOpenAPISpec`, as a function from the draft document and
workflow to the enhanced document (the JS mutates `spec` in place). -/
def enhanceOpenAPISpec (spec : OpenApiSpec) (workflow : Workflow) : OpenApiSpec :=
  let openapi := if strTruthy spec.openapi then spec.openapi else some "3.1.0"
  let info0 := spec.info.getD emptyInfo
  let info : Info :=
    { title := if strTruthy info0.title then info0.title
               else some (workflow.name ++ " Agent API")
    , version := if strTruthy info0.version then info0.version else some "1.0.0"
    , description := if strTruthy info0.description then info0.description
                     else some workflow.description
    , xAgentId := some workflow.id
    , xAgentName := some workflow.name
    , xAgentType := some "autoweave-agent"
    , xAnpVersion := some "1.0.0" }
  let servers :=
    match spec.servers with
    | some (s :: rest) => some (s :: rest)
    | _ => some [⟨"http://localhost:3000/api/agents/" ++ workflow.id, "AutoWeave Agent API"⟩]
  let comps0 := spec.components.getD ⟨none, none⟩
  let securitySchemes :=
    match comps0.securitySchemes with
    | some s => some s
    | none => some defaultSecuritySchemes
  let security :=
    match spec.security with
    | some l => some l
    | none => some [⟨"apiKey", []⟩, ⟨"bearerAuth", []⟩]
  let schemas0 := comps0.schemas.getD ⟨none, none, []⟩
  let schemas : Schemas :=
    { errorSchema := some errorSchemaDefault
    , successSchema := some successSchemaDefault
    , others := schemas0.others }
  { openapi := openapi
  , info := some info
  , servers := servers
  , paths := spec.paths
  , components := some ⟨securitySchemes, some schemas⟩
  , security := security }

/-- Result of `validateANPCompliance`: reading `spec.info['x-agent-id']` on an
absent `info` throws a `TypeError` in JS, modelled as `typeError`; otherwise
the collected rule violations are thrown together, or the check passes. -/
inductive ANPResult where
  | typeError
  | complianceError (messages : List String)
  | ok
deriving DecidableEq, Repr

/-- `AgentWeaver.validateANPCompliance`. -/
def validateANPCompliance (spec : OpenApiSpec) : ANPResult :=
  match spec.info with
  | none => .typeError
  | some info =>
    let errors :=
      (if strTruthy info.xAgentId then [] else ["Missing x-agent-id in info section"]) ++
      (if strTruthy info.xAgentName then [] else ["Missing x-agent-name in info section"]) ++
      (if strTruthy info.xAnpVersion then [] else ["Missing x-anp-version in info section"]) ++
      (if spec.paths.isSome then [] else ["No paths defined in specification"]) ++
      (if (spec.components.bind Components.securitySchemes).isSome then []
       else ["No security schemes defined"])
    if errors = [] then .ok else .complianceError errors

/-- The compliance rule exactly as the claim states it (for comparison with
`validateANPCompliance`): all four `info` extension attributes present, `paths`
non-empty, `components.securitySchemes` present. -/
def claimCompliant (spec : OpenApiSpec) : Bool :=
  match spec.info with
  | none => false
  | some info =>
    strTruthy info.xAgentId && strTruthy info.xAgentName &&
    strTruthy info.xAgentType && strTruthy info.xAnpVersion &&
    (match spec.paths with
     | some (_ :: _) => true
     | _ => false) &&
    (spec.components.bind Components.securitySchemes).isSome

/-- The `AgentWeaver` constructor's configuration (only the field the
constructor inspects). -/
structure AWConfig where
  openaiApiKey : Option String
deriving DecidableEq, Repr

/-- The state of a constructed `AgentWeaver` instance: `mockMode` is the
instance field, `undefined` (false) until `initialize` sets it. -/
structure AgentWeaverState where
  config : AWConfig
  mockMode : Bool
deriving DecidableEq, Repr

/-- The `AgentWeaver` constructor: throws when `config.openaiApiKey` is falsy,
otherwise yields an instance whose `mockMode` field is still unset. -/
def constructAgentWeaver (config : AWConfig) : Except JsError AgentWeaverState :=
  if strTruthy config.openaiApiKey then .ok ⟨config, false⟩
  else .error (.error "OpenAI API key is required")

/-- Environment observed by `initialize`: whether `NODE_ENV === 'test'`,
whether the `openai.models.list()` probe succeeds, and on failure whether the
error's code is `invalid_api_key`, together with the probe's error. -/
structure InitEnv where
  nodeEnvTest : Bool
  connectionOk : Bool
  errorCodeInvalidKey : Bool
  connError : JsError
deriving DecidableEq, Repr

/-- The weaver's `initialize` method (named `initWeaver` here because that
identifier is reserved in Lean). -/
def initWeaver (st : AgentWeaverState) (env : InitEnv) : Except JsError AgentWeaverState :=
  if env.nodeEnvTest then .ok { st with mockMode := true }
  else if env.connectionOk then .ok st
  else if env.errorCodeInvalidKey || strContains (st.config.openaiApiKey.getD "") "test" then
    .ok { st with mockMode := true }
  else .error env.connError

/-- Everything `enhanceOpenAPISpec` establishes about its output. -/
def Enhanced (d : OpenApiSpec) (w : Workflow) : Prop :=
  strTruthy d.openapi = true ∧
  (∃ i, d.info = some i ∧
    strTruthy i.title = true ∧
    strTruthy i.version = true ∧
    (strTruthy i.description = true ∨ i.description = some w.description) ∧
    i.xAgentId = some w.id ∧ i.xAgentName = some w.name ∧
    i.xAgentType = some "autoweave-agent" ∧ i.xAnpVersion = some "1.0.0") ∧
  (∃ sv rest, d.servers = some (sv :: rest)) ∧
  (∃ ss sch, d.components = some ⟨some ss, some sch⟩ ∧
    sch.errorSchema = some errorSchemaDefault ∧
    sch.successSchema = some successSchemaDefault) ∧
  (∃ sec, d.security = some sec)

/-! ### Lemmas about the sanitization pipeline -/

theorem isNameChar_hyphen : isNameChar '-' = true := by decide

theorem isNameChar_replaceChar (c : Char) : isNameChar (replaceChar c) = true := by
  unfold replaceChar
  by_cases h : isNameChar c = true
  · simp [h]
  · simp [h, isNameChar_hyphen]

theorem toLower_eq_self_of_isNameChar {c : Char} (h : isNameChar c = true) :
    c.toLower = c := by
  simp only [isNameChar, decide_eq_true_eq] at h
  unfold Char.toLower
  rw [if_neg]
  simp only [Bool.and_eq_true, decide_eq_true_eq, ge_iff_le, not_and]
  omega

theorem mem_collapseHyphens : ∀ (l : List Char) (a : Char),
    a ∈ collapseHyphens l → a ∈ l
  | [], a, h => by simp [collapseHyphens] at h
  | [c], a, h => by simpa [collapseHyphens] using h
  | b :: c :: t, a, h => by
    by_cases hbc : b = '-' ∧ c = '-'
    · have h' : a ∈ collapseHyphens (c :: t) := by
        simpa [collapseHyphens, hbc] using h
      exact List.mem_cons_of_mem b (mem_collapseHyphens (c :: t) a h')
    · rw [collapseHyphens, if_neg hbc] at h
      rcases List.mem_cons.mp h with h' | h'
      · exact h' ▸ List.mem_cons_self a _
      · exact List.mem_cons_of_mem b (mem_collapseHyphens (c :: t) a h')

theorem collapseHyphens_cons : ∀ (b : Char) (t : List Char),
    ∃ u, collapseHyphens (b :: t) = b :: u
  | b, [] => ⟨[], rfl⟩
  | b, c :: t => by
    by_cases hbc : b = '-' ∧ c = '-'
    · obtain ⟨u, hu⟩ := collapseHyphens_cons c t
      exact ⟨u, by rw [collapseHyphens, if_pos hbc, hu, hbc.1, hbc.2]⟩
    · exact ⟨collapseHyphens (c :: t), by rw [collapseHyphens, if_neg hbc]⟩

theorem noDoubleHyphen_collapseHyphens : ∀ l : List Char,
    noDoubleHyphen (collapseHyphens l) = true
  | [] => rfl
  | [c] => rfl
  | b :: c :: t => by
    by_cases hbc : b = '-' ∧ c = '-'
    · rw [collapseHyphens, if_pos hbc]
      exact noDoubleHyphen_collapseHyphens (c :: t)
    · rw [collapseHyphens, if_neg hbc]
      obtain ⟨u, hu⟩ := collapseHyphens_cons c t
      rw [hu, noDoubleHyphen, if_neg hbc]
      rw [← hu]
      exact noDoubleHyphen_collapseHyphens (c :: t)

theorem collapseHyphens_eq_self : ∀ l : List Char,
    noDoubleHyphen l = true → collapseHyphens l = l
  | [], _ => rfl
  | [c], _ => rfl
  | b :: c :: t, h => by
    rw [noDoubleHyphen] at h
    by_cases hbc : b = '-' ∧ c = '-'
    · rw [if_pos hbc] at h
      exact absurd h (by simp)
    · rw [if_neg hbc] at h
      rw [collapseHyphens, if_neg hbc, collapseHyphens_eq_self (c :: t) h]

theorem noDoubleHyphen_tail {a : Char} {l : List Char}
    (h : noDoubleHyphen (a :: l) = true) : noDoubleHyphen l = true := by
  cases l with
  | nil => rfl
  | cons b t =>
    rw [noDoubleHyphen] at h
    by_cases hab : a = '-' ∧ b = '-'
    · rw [if_pos hab] at h
      exact absurd h (by simp)
    · rwa [if_neg hab] at h

theorem noDoubleHyphen_take : ∀ (n : Nat) (l : List Char),
    noDoubleHyphen l = true → noDoubleHyphen (l.take n) = true
  | 0, _, _ => rfl
  | _ + 1, [], _ => by rw [List.take_nil]; rfl
  | n + 1, [a], _ => by
    simp only [List.take, List.take_nil]
    rfl
  | n + 1, a :: b :: t, h => by
    cases n with
    | zero => rfl
    | succ m =>
      rw [noDoubleHyphen] at h
      by_cases hab : a = '-' ∧ b = '-'
      · rw [if_pos hab] at h
        exact absurd h (by simp)
      · rw [if_neg hab] at h
        have ih := noDoubleHyphen_take (m + 1) (b :: t) h
        simp only [List.take]
        rw [noDoubleHyphen]
        rw [if_neg hab]
        simpa using ih

theorem noDoubleHyphen_dropLast : ∀ l : List Char,
    noDoubleHyphen l = true → noDoubleHyphen l.dropLast = true := by
  intro l h
  rw [List.dropLast_eq_take]
  exact noDoubleHyphen_take _ l h

theorem dropLeadingHyphen_eq_self {l : List Char} (h : l.head? ≠ some '-') :
    dropLeadingHyphen l = l := by
  cases l with
  | nil => rfl
  | cons c cs =>
    have hc : c ≠ '-' := by simpa using h
    simp [dropLeadingHyphen, hc]

theorem head?_dropLeadingHyphen {l : List Char} (h : noDoubleHyphen l = true) :
    (dropLeadingHyphen l).head? ≠ some '-' := by
  cases l with
  | nil => simp [dropLeadingHyphen]
  | cons c cs =>
    by_cases hc : c = '-'
    · subst hc
      simp only [dropLeadingHyphen, if_pos rfl]
      cases cs with
      | nil => simp
      | cons b t =>
        rw [noDoubleHyphen] at h
        by_cases hb : b = '-'
        · rw [if_pos ⟨rfl, hb⟩] at h
          exact absurd h (by simp)
        · simpa using hb
    · simp [dropLeadingHyphen, hc]

theorem noDoubleHyphen_dropLeadingHyphen {l : List Char}
    (h : noDoubleHyphen l = true) : noDoubleHyphen (dropLeadingHyphen l) = true := by
  cases l with
  | nil => rfl
  | cons c cs =>
    by_cases hc : c = '-'
    · simp only [dropLeadingHyphen, if_pos hc]
      exact noDoubleHyphen_tail h
    · simp only [dropLeadingHyphen, if_neg hc]
      exact h

theorem head?_dropLast_ne {l : List Char} (h : l.head? ≠ some '-') :
    l.dropLast.head? ≠ some '-' := by
  cases l with
  | nil => simp
  | cons a t =>
    cases t with
    | nil => simp [List.dropLast]
    | cons b t' => simpa [List.dropLast] using h

theorem head?_dropTrailingHyphen {l : List Char} (h : l.head? ≠ some '-') :
    (dropTrailingHyphen l).head? ≠ some '-' := by
  unfold dropTrailingHyphen
  split
  · exact head?_dropLast_ne h
  · exact h

theorem noDoubleHyphen_dropTrailingHyphen {l : List Char}
    (h : noDoubleHyphen l = true) : noDoubleHyphen (dropTrailingHyphen l) = true := by
  unfold dropTrailingHyphen
  split
  · exact noDoubleHyphen_dropLast l h
  · exact h

theorem head?_take_ne {l : List Char} {n : Nat} (hn : n ≠ 0)
    (h : l.head? ≠ some '-') : (l.take n).head? ≠ some '-' := by
  cases l with
  | nil => simp [List.take_nil]
  | cons a t =>
    cases n with
    | zero => exact absurd rfl hn
    | succ m => simpa [List.take] using h

theorem dropLeadingHyphen_sublist (l : List Char) : List.Sublist (dropLeadingHyphen l) l := by
  cases l with
  | nil => exact List.Sublist.refl _
  | cons c cs =>
    by_cases hc : c = '-'
    · simp only [dropLeadingHyphen, if_pos hc]
      exact List.sublist_cons_self c cs
    · simp [dropLeadingHyphen, hc]

theorem dropTrailingHyphen_sublist (l : List Char) : List.Sublist (dropTrailingHyphen l) l := by
  unfold dropTrailingHyphen
  split
  · exact List.dropLast_sublist l
  · exact List.Sublist.refl _

theorem replaceChar_eq_self {c : Char} (h : isNameChar c = true) : replaceChar c = c := by
  simp [replaceChar, h]

theorem map_toLower_eq_self {l : List Char}
    (h : ∀ c ∈ l, isNameChar c = true) : l.map Char.toLower = l := by
  induction l with
  | nil => rfl
  | cons a t ih =>
    simp only [List.map_cons]
    rw [toLower_eq_self_of_isNameChar (h a (by simp)),
        ih (fun c hc => h c (by simp [hc]))]

theorem map_replaceChar_eq_self {l : List Char}
    (h : ∀ c ∈ l, isNameChar c = true) : l.map replaceChar = l := by
  induction l with
  | nil => rfl
  | cons a t ih =>
    simp only [List.map_cons]
    rw [replaceChar_eq_self (h a (by simp)), ih (fun c hc => h c (by simp [hc]))]

/-- The character-list pipeline of `sanitizeName`, exposed for rewriting. -/
theorem sanitizeName_data (s : String) :
    (sanitizeName s).data =
      (dropTrailingHyphen (dropLeadingHyphen
        (collapseHyphens ((s.data.map Char.toLower).map replaceChar)))).take 63 := rfl

theorem sanitizeName_length_le (s : String) : (sanitizeName s).length ≤ 63 := by
  show (sanitizeName s).data.length ≤ 63
  rw [sanitizeName_data, List.length_take]
  exact min_le_left _ _

theorem sanitizeName_allName (s : String) :
    ∀ c ∈ (sanitizeName s).data, isNameChar c = true := by
  rw [sanitizeName_data]
  intro c hc
  have h1 := (List.take_sublist 63 _).subset hc
  have h2 := (dropTrailingHyphen_sublist _).subset h1
  have h3 := (dropLeadingHyphen_sublist _).subset h2
  have h4 := mem_collapseHyphens _ _ h3
  obtain ⟨a, _, rfl⟩ := List.mem_map.mp h4
  exact isNameChar_replaceChar a

theorem sanitizeName_noDD (s : String) :
    noDoubleHyphen (sanitizeName s).data = true := by
  rw [sanitizeName_data]
  exact noDoubleHyphen_take _ _ (noDoubleHyphen_dropTrailingHyphen
    (noDoubleHyphen_dropLeadingHyphen (noDoubleHyphen_collapseHyphens _)))

theorem sanitizeName_head (s : String) :
    (sanitizeName s).data.head? ≠ some '-' := by
  rw [sanitizeName_data]
  exact head?_take_ne (by decide) (head?_dropTrailingHyphen
    (head?_dropLeadingHyphen (noDoubleHyphen_collapseHyphens _)))

/-- A string that is already in sanitized shape, with no trailing hyphen, is a
fixed point of `sanitizeName`. -/
theorem sanitizeName_fixed_of {r : String}
    (hall : ∀ c ∈ r.data, isNameChar c = true)
    (hdd : noDoubleHyphen r.data = true)
    (hhead : r.data.head? ≠ some '-')
    (hlast : r.data.getLast? ≠ some '-')
    (hlen : r.data.length ≤ 63) :
    sanitizeName r = r := by
  have hdata : (sanitizeName r).data = r.data := by
    rw [sanitizeName_data, map_toLower_eq_self hall, map_replaceChar_eq_self hall,
        collapseHyphens_eq_self _ hdd, dropLeadingHyphen_eq_self hhead]
    unfold dropTrailingHyphen
    rw [if_neg hlast]
    exact List.take_of_length_le hlen
  cases r with
  | mk d => exact congrArg String.mk hdata

/-! ### Lemmas about contract enhancement -/

theorem strTruthy_append_agentAPI (s : String) :
    strTruthy (some (s ++ " Agent API")) = true := by
  have h : (s ++ " Agent API").data = s.data ++ " Agent API".data := rfl
  simp [strTruthy, h]

theorem enhance_post (d : OpenApiSpec) (w : Workflow) :
    Enhanced (enhanceOpenAPISpec d w) w := by
  obtain ⟨o, io, srv, p, comp, se⟩ := d
  unfold Enhanced enhanceOpenAPISpec
  dsimp only
  refine ⟨?_, ⟨_, rfl, ?_, ?_, ?_, rfl, rfl, rfl, rfl⟩, ?_, ?_, ?_⟩
  · split
    · assumption
    · decide
  · dsimp only
    split
    · assumption
    · exact strTruthy_append_agentAPI w.name
  · dsimp only
    split
    · assumption
    · decide
  · dsimp only
    split
    · left; assumption
    · right; rfl
  · split
    · exact ⟨_, _, rfl⟩
    · exact ⟨_, [], rfl⟩
  · split
    · exact ⟨_, _, rfl, rfl, rfl⟩
    · exact ⟨defaultSecuritySchemes, _, rfl, rfl, rfl⟩
  · split
    · exact ⟨_, rfl⟩
    · exact ⟨_, rfl⟩

theorem enhance_fixed {d : OpenApiSpec} {w : Workflow} (h : Enhanced d w) :
    enhanceOpenAPISpec d w = d := by
  obtain ⟨hopen, ⟨i, hinfo, htitle, hver, hdesc, hid, hname, htype, hanp⟩,
    ⟨sv, rest, hservers⟩, ⟨ss, sch, hcomp, herr, hsucc⟩, ⟨sec, hsec⟩⟩ := h
  unfold enhanceOpenAPISpec
  rw [hinfo, hservers, hcomp, hsec]
  dsimp only [Option.getD_some]
  rw [if_pos hopen, if_pos htitle, if_pos hver]
  rw [← hid, ← hname, ← htype, ← hanp, ← herr, ← hsucc]
  have hdesc' : (if strTruthy i.description = true then i.description
      else some w.description) = i.description := by
    rcases hdesc with h1 | h1
    · rw [if_pos h1]
    · rw [← h1, ite_self]
  rw [hdesc']
  rw [← hinfo, ← hservers, ← hcomp, ← hsec]

/-! ### Lemmas about workflow validation and retry -/

theorem validateAndEnhanceWorkflow_ok {raw : RawWorkflow} {d g : String} {w : Workflow}
    (h : validateAndEnhanceWorkflow raw d g = .ok w) :
    k8sNameValid w.name = true ∧ w.requiredModules ≠ [] := by
  unfold validateAndEnhanceWorkflow at h
  dsimp only at h
  by_cases hname : strTruthy raw.name = false
  · rw [if_pos hname] at h
    simp at h
  · rw [if_neg hname] at h
    cases hmods : raw.requiredModules with
    | none => rw [hmods] at h; simp at h
    | some l =>
      rw [hmods] at h
      cases l with
      | nil => simp at h
      | cons m ms =>
        cases hk : validateKubernetesName (sanitizeName (raw.name.getD "")) with
        | error e => rw [hk] at h; simp at h
        | ok u =>
          rw [hk] at h
          cases h
          unfold validateKubernetesName at hk
          split at hk
          · rename_i hvalid
            exact ⟨hvalid, by simp⟩
          · exact absurd hk (by simp)

theorem withRetryGo_ok {op : Nat → Except JsError α} {p : JsError → Bool} :
    ∀ {n calls : Nat} {a : α} {k : Nat},
      withRetryGo op p n calls = (.ok a, k) → ∃ i, op i = .ok a := by
  intro n
  induction n with
  | zero =>
    intro calls a k h
    simp [withRetryGo] at h
  | succ m ih =>
    intro calls a k h
    unfold withRetryGo at h
    cases hop : op calls with
    | ok b =>
      rw [hop] at h
      dsimp only at h
      simp only [Prod.mk.injEq] at h
      exact ⟨calls, by rw [hop, h.1]⟩
    | error e =>
      rw [hop] at h
      dsimp only at h
      split at h
      · exact ih h
      · simp at h

theorem generateWorkflow_network_ok {resp : List (Except JsError ParseOutcome)}
    {d : JsInput} {now rnd : String} {w : Workflow} {n : Nat}
    (h : generateWorkflow false resp d now rnd = (.ok w, n)) :
    k8sNameValid w.name = true ∧ w.requiredModules ≠ [] := by
  unfold generateWorkflow at h
  cases hv : validateAgentDescription d with
  | error e =>
    rw [hv] at h
    simp at h
  | ok s =>
    rw [hv] at h
    simp only [Bool.false_eq_true, if_false] at h
    obtain ⟨i, hi⟩ := withRetryGo_ok h
    unfold processDescription at hi
    cases hresp : resp.getD i (.error (.error "no completion response")) with
    | error e => rw [hresp] at hi; simp at hi
    | ok po =>
      rw [hresp] at hi
      cases po with
      | malformed => simp at hi
      | parsed raw =>
        dsimp only at hi
        cases hval : validateAndEnhanceWorkflow raw s ("agent-" ++ now ++ "-" ++ rnd) with
        | error e => rw [hval] at hi; simp at hi
        | ok w' =>
          rw [hval] at hi
          cases hi
          exact validateAndEnhanceWorkflow_ok hval

/-! ### Claim theorems -/

/-- Claim C2, counterexample: the description of twenty exclamation marks
passes input validation, so the offline/mock path of `generateWorkflow`
returns (with no completion call) a workflow whose `name` is the empty string,
which fails the platform-name pattern — the returned Workflow violates the
Workflow invariant without an exception being raised. -/
theorem C2_claim_counterexample :
    validateAgentDescription (JsInput.strVal "!!!!!!!!!!!!!!!!!!!!")
      = .ok "!!!!!!!!!!!!!!!!!!!!" ∧
    generateWorkflow true [] (JsInput.strVal "!!!!!!!!!!!!!!!!!!!!") "0" "r"
      = (.ok (generateMockWorkflow "!!!!!!!!!!!!!!!!!!!!" "0" "r"), 0) ∧
    (generateMockWorkflow "!!!!!!!!!!!!!!!!!!!!" "0" "r").name = "" ∧
    k8sNameValid (generateMockWorkflow "!!!!!!!!!!!!!!!!!!!!" "0" "r").name = false := by
  refine ⟨by decide, by decide, by decide, by decide⟩

/-- Claim C2 (amended): on the network path, whenever `generateWorkflow` (and
in particular `validateAndEnhanceWorkflow`) returns a Workflow, that Workflow
satisfies the invariant: its name matches the platform-name pattern and
`requiredModules` is non-empty. On the offline/mock path only the
`requiredModules` half of the invariant is guaranteed; the name may fail the
pattern (see the counterexample). -/
theorem C2_amended_workflow_invariant :
    (∀ (resp : List (Except JsError ParseOutcome)) (d : JsInput) (now rnd : String)
        (w : Workflow) (n : Nat),
        generateWorkflow false resp d now rnd = (.ok w, n) →
        k8sNameValid w.name = true ∧ w.requiredModules ≠ []) ∧
    (∀ (raw : RawWorkflow) (d g : String) (w : Workflow),
        validateAndEnhanceWorkflow raw d g = .ok w →
        k8sNameValid w.name = true ∧ w.requiredModules ≠ []) ∧
    (∀ d now rnd, (generateMockWorkflow d now rnd).requiredModules ≠ []) :=
  ⟨fun _ _ _ _ _ _ h => generateWorkflow_network_ok h,
   fun _ _ _ _ h => validateAndEnhanceWorkflow_ok h,
   fun _ _ _ => by simp [generateMockWorkflow]⟩

/-- Witness for C2: a concrete successful network-path run satisfying the
invariant. -/
theorem C2_amended_workflow_invariant_witness :
    k8sNameValid (Workflow.mk "id1" "my-agent" "desc"
      [⟨"m", "file_system", "x"⟩] [] ⟨"gpt-4", mkRat 7 10⟩).name = true ∧
    (Workflow.mk "id1" "my-agent" "desc"
      [⟨"m", "file_system", "x"⟩] [] ⟨"gpt-4", mkRat 7 10⟩).requiredModules ≠ [] :=
  C2_amended_workflow_invariant.1
    [.ok (.parsed ⟨some "id1", some "My Agent", some "desc",
      some [⟨"m", "file_system", "x"⟩], none, none⟩)]
    (JsInput.strVal "this is a valid description!!") "0" "r"
    (Workflow.mk "id1" "my-agent" "desc"
      [⟨"m", "file_system", "x"⟩] [] ⟨"gpt-4", mkRat 7 10⟩) 1 (by decide)

/-- Claim C3, counterexample: on an input of 62 `a`s followed by `-b`,
`sanitizeName` returns 62 `a`s followed by a hyphen — truncation to 63
characters happens after hyphen stripping, so the result ends with a hyphen. -/
theorem C3_claim_counterexample :
    (sanitizeName
        "aaaaaaaaaaaaaaaaaaaaaaaaaaaaaaaaaaaaaaaaaaaaaaaaaaaaaaaaaaaaaa-b").data.getLast?
      = some '-' := by decide

/-- Claim C3 (amended): `sanitizeName` always returns at most 63 characters
and its result never starts with a hyphen; a trailing hyphen, however, can
survive because truncation is applied after stripping. -/
theorem C3_amended_sanitize_bounds (s : String) :
    (sanitizeName s).length ≤ 63 ∧ (sanitizeName s).data.head? ≠ some '-' :=
  ⟨sanitizeName_length_le s, sanitizeName_head s⟩

/-- Claim C4: `generateWorkflow` raises the `ValidationError` naming field
`description` for every nullish, non-string, too-short or too-long input,
with zero completion-service calls; a string of length in [20, 1000] passes
input validation. -/
theorem C4_input_validation :
    (∀ s : String, 20 ≤ s.length → s.length ≤ 1000 →
        validateAgentDescription (JsInput.strVal s) = .ok s) ∧
    (∀ (d : JsInput) (e : JsError), validateAgentDescription d = .error e →
        ∃ m, e = .validationError m (some "description")) ∧
    (∀ s : String, s.length < 20 ∨ 1000 < s.length →
        ∃ m, validateAgentDescription (JsInput.strVal s)
          = .error (.validationError m (some "description"))) ∧
    (∃ m, validateAgentDescription JsInput.nullish
        = .error (.validationError m (some "description"))) ∧
    (∃ m, validateAgentDescription JsInput.nonString
        = .error (.validationError m (some "description"))) ∧
    (∀ (mock : Bool) (resp : List (Except JsError ParseOutcome)) (d : JsInput)
        (now rnd : String) (e : JsError),
        validateAgentDescription d = .error e →
        generateWorkflow mock resp d now rnd = (.error e, 0)) := by
  refine ⟨?_, ?_, ?_, ⟨_, rfl⟩, ⟨_, rfl⟩, ?_⟩
  · intro s h1 h2
    unfold validateAgentDescription
    dsimp only
    rw [if_neg (by omega), if_neg (by omega)]
  · intro d e h
    cases d with
    | nullish => cases h; exact ⟨_, rfl⟩
    | nonString => cases h; exact ⟨_, rfl⟩
    | strVal s =>
      unfold validateAgentDescription at h
      dsimp only at h
      split at h
      · cases h; exact ⟨_, rfl⟩
      · split at h
        · cases h; exact ⟨_, rfl⟩
        · simp at h
  · intro s h
    unfold validateAgentDescription
    dsimp only
    rcases h with h | h
    · rw [if_pos h]
      exact ⟨_, rfl⟩
    · rw [if_neg (by omega), if_pos (by omega)]
      exact ⟨_, rfl⟩
  · intro mock resp d now rnd e h
    simp [generateWorkflow, h]

/-- Witness for C4: a 33-character description passes validation; the
5-character description `"short"` is rejected with the `description` field
named and zero completion calls. -/
theorem C4_input_validation_witness :
    validateAgentDescription (JsInput.strVal "Monitor a directory and summarize")
      = .ok "Monitor a directory and summarize" ∧
    generateWorkflow false [] (JsInput.strVal "short") "0" "r"
      = (.error (.validationError "Description must be at least 20 characters long"
          (some "description")), 0) :=
  ⟨C4_input_validation.1 "Monitor a directory and summarize" (by decide) (by decide),
   C4_input_validation.2.2.2.2.2 false [] (JsInput.strVal "short") "0" "r"
     (.validationError "Description must be at least 20 characters long"
       (some "description")) (by decide)⟩

/-- Claim C5, counterexample: a response that parses to the empty object (so
semantic validation fails on the missing name) produces exactly the same
generic `Error "Invalid workflow structure generated"` as an unparseable
response — the validation error is not surfaced verbatim, names no field, and
is not a distinct error kind. -/
theorem C5_claim_counterexample :
    processDescription (.ok (.parsed ⟨none, none, none, none, none, none⟩))
        "a sufficiently long description" "0" "r"
      = .error (.error "Invalid workflow structure generated") ∧
    processDescription (.ok .malformed) "a sufficiently long description" "0" "r"
      = .error (.error "Invalid workflow structure generated") := by
  refine ⟨by decide, by decide⟩

/-- Claim C5 (amended): whenever the parsed response fails semantic validation
inside `processDescription`, the thrown validation error is caught by the same
`catch` as parse failures and replaced by the generic
`Error "Invalid workflow structure generated"`, identical to the parse-failure
error — callers cannot distinguish the two cases. -/
theorem C5_amended_error_conflation (raw : RawWorkflow) (d now rnd : String)
    (e : JsError)
    (h : validateAndEnhanceWorkflow raw d ("agent-" ++ now ++ "-" ++ rnd) = .error e) :
    processDescription (.ok (.parsed raw)) d now rnd
      = .error (.error "Invalid workflow structure generated") ∧
    processDescription (.ok .malformed) d now rnd
      = .error (.error "Invalid workflow structure generated") :=
  ⟨by simp [processDescription, h], rfl⟩

/-- Witness for C5: the all-absent raw workflow fails validation (missing
name) and is reported with the generic parse-failure message. -/
theorem C5_amended_error_conflation_witness :
    processDescription (.ok (.parsed ⟨none, none, none, none, none, none⟩)) "x" "0" "r"
      = .error (.error "Invalid workflow structure generated") ∧
    processDescription (.ok .malformed) "x" "0" "r"
      = .error (.error "Invalid workflow structure generated") :=
  C5_amended_error_conflation ⟨none, none, none, none, none, none⟩ "x" "0" "r"
    (.error "Workflow must have a name") (by decide)

/-- Claim C7: contract enhancement is idempotent — enhancing an already
enhanced document with the same workflow returns it unchanged. -/
theorem C7_enhance_idempotent (d : OpenApiSpec) (w : Workflow) :
    enhanceOpenAPISpec (enhanceOpenAPISpec d w) w = enhanceOpenAPISpec d w :=
  enhance_fixed (enhance_post d w)

/-- Claim C8, counterexample: `sanitizeName` is not idempotent — on 62 `a`s
followed by `-b` the first application yields a string ending in a hyphen
(truncation), and the second application strips that hyphen. -/
theorem C8_claim_counterexample :
    sanitizeName (sanitizeName
        "aaaaaaaaaaaaaaaaaaaaaaaaaaaaaaaaaaaaaaaaaaaaaaaaaaaaaaaaaaaaaa-b")
      ≠ sanitizeName
        "aaaaaaaaaaaaaaaaaaaaaaaaaaaaaaaaaaaaaaaaaaaaaaaaaaaaaaaaaaaaaa-b" := by
  decide

/-- Claim C8 (amended): `sanitizeName` is idempotent on every input whose
sanitized form does not end in a hyphen; only truncation at a hyphen breaks
idempotence. -/
theorem C8_amended_sanitize_idempotent (s : String)
    (h : (sanitizeName s).data.getLast? ≠ some '-') :
    sanitizeName (sanitizeName s) = sanitizeName s :=
  sanitizeName_fixed_of (sanitizeName_allName s) (sanitizeName_noDD s)
    (sanitizeName_head s) h (sanitizeName_length_le s)

/-- Witness for C8: idempotence at a concrete input. -/
theorem C8_amended_sanitize_idempotent_witness :
    sanitizeName (sanitizeName "My Agent!") = sanitizeName "My Agent!" :=
  C8_amended_sanitize_idempotent "My Agent!" (by decide)

/-- Claim C1, counterexample: a draft whose info carries `x-agent-id`,
`x-agent-name` and `x-anp-version` but no `x-agent-type`, with a present but
empty `paths` object and security schemes present, passes
`validateANPCompliance` — although the claim's rule set (all four extension
attributes present and `paths` non-empty) calls it non-compliant. -/
theorem C1_claim_counterexample :
    validateANPCompliance
      { openapi := some "3.1.0"
      , info := some ⟨some "t", some "1.0.0", some "d",
          some "agent-1", some "wf", none, some "1.0.0"⟩
      , servers := none
      , paths := some []
      , components := some ⟨some defaultSecuritySchemes, none⟩
      , security := none } = ANPResult.ok ∧
    claimCompliant
      { openapi := some "3.1.0"
      , info := some ⟨some "t", some "1.0.0", some "d",
          some "agent-1", some "wf", none, some "1.0.0"⟩
      , servers := none
      , paths := some []
      , components := some ⟨some defaultSecuritySchemes, none⟩
      , security := none } = false := by
  refine ⟨by decide, by decide⟩

/-- Claim C1 (amended): for any draft whose `info` object is present,
`validateANPCompliance` raises iff one of exactly these five rules fails:
`x-agent-id`, `x-agent-name`, `x-anp-version` truthy in `info`, `paths`
present (emptiness is not checked), `components.securitySchemes` present —
`x-agent-type` is never checked. All failing rules are collected, each
contributing its own message to the single raised error, and only failing
rules contribute. -/
theorem C1_amended_compliance (d : OpenApiSpec) (i : Info) (hinfo : d.info = some i) :
    ((validateANPCompliance d = ANPResult.ok) ↔
      (strTruthy i.xAgentId = true ∧ strTruthy i.xAgentName = true ∧
       strTruthy i.xAnpVersion = true ∧ d.paths.isSome = true ∧
       (d.components.bind Components.securitySchemes).isSome = true)) ∧
    (∀ msgs, validateANPCompliance d = ANPResult.complianceError msgs →
      msgs ≠ [] ∧
      (("Missing x-agent-id in info section" ∈ msgs) ↔ ¬ strTruthy i.xAgentId = true) ∧
      (("Missing x-agent-name in info section" ∈ msgs) ↔ ¬ strTruthy i.xAgentName = true) ∧
      (("Missing x-anp-version in info section" ∈ msgs) ↔ ¬ strTruthy i.xAnpVersion = true) ∧
      (("No paths defined in specification" ∈ msgs) ↔ ¬ d.paths.isSome = true) ∧
      (("No security schemes defined" ∈ msgs) ↔
        ¬ (d.components.bind Components.securitySchemes).isSome = true)) := by
  unfold validateANPCompliance
  rw [hinfo]
  by_cases h1 : strTruthy i.xAgentId = true <;>
    by_cases h2 : strTruthy i.xAgentName = true <;>
      by_cases h3 : strTruthy i.xAnpVersion = true <;>
        by_cases h4 : d.paths.isSome = true <;>
          by_cases h5 : (d.components.bind Components.securitySchemes).isSome = true <;>
            simp [h1, h2, h3, h4, h5]

/-- Witness for C1: a fully compliant concrete document passes the check. -/
theorem C1_amended_compliance_witness :
    validateANPCompliance
      { openapi := some "3.1.0"
      , info := some ⟨some "t", some "1.0.0", some "d",
          some "agent-1", some "wf", some "autoweave-agent", some "1.0.0"⟩
      , servers := none
      , paths := some ["/health"]
      , components := some ⟨some defaultSecuritySchemes, none⟩
      , security := none } = ANPResult.ok :=
  (C1_amended_compliance _
    ⟨some "t", some "1.0.0", some "d",
      some "agent-1", some "wf", some "autoweave-agent", some "1.0.0"⟩ rfl).1.mpr
    (by refine ⟨by decide, by decide, by decide, by decide, by decide⟩)

/-- Claim C6, counterexample: a draft that already contains a custom
`components.schemas.Error` entry and its own `x-agent-id` has both values
overwritten by `enhanceOpenAPISpec` (the Error schema is replaced by the fixed
default, the agent id by the workflow's id). -/
theorem C6_claim_counterexample :
    (({ openapi := none
      , info := some ⟨none, none, none, some "original-id", none, none, none⟩
      , servers := none
      , paths := none
      , components := some ⟨none, some ⟨some ⟨"object", [], []⟩, none, []⟩⟩
      , security := none } : OpenApiSpec).components.bind Components.schemas).map
        Schemas.errorSchema = some (some ⟨"object", [], []⟩) ∧
    (((enhanceOpenAPISpec
      { openapi := none
      , info := some ⟨none, none, none, some "original-id", none, none, none⟩
      , servers := none
      , paths := none
      , components := some ⟨none, some ⟨some ⟨"object", [], []⟩, none, []⟩⟩
      , security := none }
      ⟨"wf-1", "wf", "d", [], [], ⟨"gpt-4", mkRat 7 10⟩⟩).components.bind
        Components.schemas).map Schemas.errorSchema)
      = some (some errorSchemaDefault) ∧
    (⟨"object", [], []⟩ : ObjectSchema) ≠ errorSchemaDefault ∧
    ((enhanceOpenAPISpec
      { openapi := none
      , info := some ⟨none, none, none, some "original-id", none, none, none⟩
      , servers := none
      , paths := none
      , components := some ⟨none, some ⟨some ⟨"object", [], []⟩, none, []⟩⟩
      , security := none }
      ⟨"wf-1", "wf", "d", [], [], ⟨"gpt-4", mkRat 7 10⟩⟩).info.map Info.xAgentId)
      = some (some "wf-1") := by
  refine ⟨by decide, by decide, by decide, by decide⟩

/-- Claim C6 (amended): `enhanceOpenAPISpec` fills `openapi`,
`info.title/version/description`, `servers`, `components.securitySchemes` and
`security` only when absent or blank — present values of those fields and all
of `paths` and the non-Error/Success schemas survive unchanged — but it
unconditionally overwrites the four `info` extension attributes (from the
workflow) and the `Error` and `Success` schemas (with fixed defaults). -/
theorem C6_amended_enhance_frame (d : OpenApiSpec) (w : Workflow) :
    ((enhanceOpenAPISpec d w).paths = d.paths) ∧
    (∀ i, d.info = some i → strTruthy i.title = true →
        (enhanceOpenAPISpec d w).info.map Info.title = some i.title) ∧
    (∀ i, d.info = some i → strTruthy i.version = true →
        (enhanceOpenAPISpec d w).info.map Info.version = some i.version) ∧
    (∀ i, d.info = some i → strTruthy i.description = true →
        (enhanceOpenAPISpec d w).info.map Info.description = some i.description) ∧
    (strTruthy d.openapi = true → (enhanceOpenAPISpec d w).openapi = d.openapi) ∧
    (∀ sv rest, d.servers = some (sv :: rest) →
        (enhanceOpenAPISpec d w).servers = some (sv :: rest)) ∧
    (∀ c ss, d.components = some c → c.securitySchemes = some ss →
        (enhanceOpenAPISpec d w).components.bind Components.securitySchemes = some ss) ∧
    (∀ sec, d.security = some sec → (enhanceOpenAPISpec d w).security = some sec) ∧
    (∀ c sch, d.components = some c → c.schemas = some sch →
        ((enhanceOpenAPISpec d w).components.bind Components.schemas).map Schemas.others
          = some sch.others) ∧
    ((enhanceOpenAPISpec d w).info.map Info.xAgentId = some (some w.id)) ∧
    ((enhanceOpenAPISpec d w).info.map Info.xAgentName = some (some w.name)) ∧
    ((enhanceOpenAPISpec d w).info.map Info.xAgentType = some (some "autoweave-agent")) ∧
    ((enhanceOpenAPISpec d w).info.map Info.xAnpVersion = some (some "1.0.0")) ∧
    (((enhanceOpenAPISpec d w).components.bind Components.schemas).map Schemas.errorSchema
      = some (some errorSchemaDefault)) ∧
    (((enhanceOpenAPISpec d w).components.bind Components.schemas).map Schemas.successSchema
      = some (some successSchemaDefault)) := by
  refine ⟨rfl, ?_, ?_, ?_, ?_, ?_, ?_, ?_, ?_, rfl, rfl, rfl, rfl, rfl, rfl⟩
  · intro i hi ht
    unfold enhanceOpenAPISpec
    rw [hi]
    dsimp only [Option.getD_some]
    rw [if_pos ht]
    rfl
  · intro i hi hv
    unfold enhanceOpenAPISpec
    rw [hi]
    dsimp only [Option.getD_some]
    rw [if_pos hv]
    rfl
  · intro i hi hd
    unfold enhanceOpenAPISpec
    rw [hi]
    dsimp only [Option.getD_some]
    rw [if_pos hd]
    rfl
  · intro h
    unfold enhanceOpenAPISpec
    dsimp only
    rw [if_pos h]
  · intro sv rest h
    unfold enhanceOpenAPISpec
    rw [h]
  · intro c ss hc hss
    unfold enhanceOpenAPISpec
    rw [hc]
    dsimp only [Option.getD_some]
    rw [hss]
    rfl
  · intro sec h
    unfold enhanceOpenAPISpec
    rw [h]
  · intro c sch hc hsch
    unfold enhanceOpenAPISpec
    rw [hc]
    dsimp only [Option.getD_some]
    rw [hsch]
    rfl

/-- Witness for C6: a present, truthy title and an existing security scheme
are preserved at a concrete input. -/
theorem C6_amended_enhance_frame_witness :
    (enhanceOpenAPISpec
      { openapi := none
      , info := some ⟨some "Keep Title", none, none, none, none, none, none⟩
      , servers := none
      , paths := none
      , components := none
      , security := none }
      ⟨"wf-1", "wf", "d", [], [], ⟨"gpt-4", mkRat 7 10⟩⟩).info.map Info.title
      = some (some "Keep Title") :=
  (C6_amended_enhance_frame
    { openapi := none
    , info := some ⟨some "Keep Title", none, none, none, none, none, none⟩
    , servers := none
    , paths := none
    , components := none
    , security := none }
    ⟨"wf-1", "wf", "d", [], [], ⟨"gpt-4", mkRat 7 10⟩⟩).2.1
    ⟨some "Keep Title", none, none, none, none, none, none⟩ rfl (by decide)

/-- Claim C9, counterexample: in mock mode the returned Workflow is not a
function of the description alone — two invocations with the same valid
description but different `Date.now()`/`Math.random()` values return
different Workflows (their ids differ). -/
theorem C9_claim_counterexample :
    validateAgentDescription
        (JsInput.strVal "Monitor a directory and summarize new files daily")
      = .ok "Monitor a directory and summarize new files daily" ∧
    generateMockWorkflow "Monitor a directory and summarize new files daily" "100" "abc"
      ≠ generateMockWorkflow "Monitor a directory and summarize new files daily" "200" "xyz" := by
  refine ⟨by decide, by decide⟩

/-- Claim C9 (amended): every field of the mock Workflow except `id` is a
pure function of the description (name from the first three words, sanitized;
fixed single module, single step and model config), and mock mode never calls
the completion service; the `id` embeds the timestamp and random suffix, so
repeated invocations differ in `id`. -/
theorem C9_amended_mock_determinism :
    (∀ d now1 rnd1 now2 rnd2,
      (generateMockWorkflow d now1 rnd1).name = (generateMockWorkflow d now2 rnd2).name ∧
      (generateMockWorkflow d now1 rnd1).description
        = (generateMockWorkflow d now2 rnd2).description ∧
      (generateMockWorkflow d now1 rnd1).requiredModules
        = (generateMockWorkflow d now2 rnd2).requiredModules ∧
      (generateMockWorkflow d now1 rnd1).steps = (generateMockWorkflow d now2 rnd2).steps ∧
      (generateMockWorkflow d now1 rnd1).modelConfig
        = (generateMockWorkflow d now2 rnd2).modelConfig ∧
      (generateMockWorkflow d now1 rnd1).id = "agent-" ++ now1 ++ "-" ++ rnd1 ∧
      (generateMockWorkflow d now1 rnd1).name
        = sanitizeName (String.mk (joinWithHyphen ((splitChars ' ' d.data).take 3)))) ∧
    (∀ (resp : List (Except JsError ParseOutcome)) (s now rnd : String),
      (generateWorkflow true resp (JsInput.strVal s) now rnd).2 = 0) := by
  constructor
  · intro d now1 rnd1 now2 rnd2
    exact ⟨rfl, rfl, rfl, rfl, rfl, rfl, rfl⟩
  · intro resp s now rnd
    unfold generateWorkflow
    cases validateAgentDescription (JsInput.strVal s) with
    | error e => rfl
    | ok s' => rfl

/-- Claim C10: constructing an AgentWeaver with a falsy `openaiApiKey` throws
`Error "OpenAI API key is required"`; a successful construction implies a
truthy key and leaves `mockMode` unset (false) — mock mode is only selected
later, by `initialize`. -/
theorem C10_constructor_requires_key :
    (∀ config : AWConfig, strTruthy config.openaiApiKey = false →
        constructAgentWeaver config = .error (.error "OpenAI API key is required")) ∧
    (∀ (config : AWConfig) (st : AgentWeaverState),
        constructAgentWeaver config = .ok st →
        strTruthy config.openaiApiKey = true ∧ st.mockMode = false) := by
  constructor
  · intro config h
    unfold constructAgentWeaver
    rw [if_neg]
    simp [h]
  · intro config st h
    unfold constructAgentWeaver at h
    split at h
    · rename_i hc
      cases h
      exact ⟨hc, rfl⟩
    · simp at h

/-- Witness for C10: both an absent and an empty API key are rejected, and a
non-empty key constructs with `mockMode` false. -/
theorem C10_constructor_requires_key_witness :
    constructAgentWeaver ⟨none⟩ = .error (.error "OpenAI API key is required") ∧
    constructAgentWeaver ⟨some ""⟩ = .error (.error "OpenAI API key is required") ∧
    strTruthy (AWConfig.mk (some "sk-1")).openaiApiKey = true ∧
    (AgentWeaverState.mk ⟨some "sk-1"⟩ false).mockMode = false :=
  ⟨C10_constructor_requires_key.1 ⟨none⟩ (by decide),
   C10_constructor_requires_key.1 ⟨some ""⟩ (by decide),
   C10_constructor_requires_key.2 ⟨some "sk-1"⟩ ⟨⟨some "sk-1"⟩, false⟩ (by decide)⟩

end AutoWeave
